import Mathlib

/-!
Shallow embedding of `run.py`, the regression pipeline driver of riscv-dv.

External processes are modelled by an oracle `World` mapping each resolved
command string to its observable behaviour (exit code, combined output,
wall-clock duration).  Environment variables are an oracle `Env`.  Each
Python function of `run.py` is translated to a Lean function of the same
name (modulo Lean lexical restrictions); fatal `sys.exit` paths become
`Except.error`.

The Python string primitives used by `run.py` are modelled by structurally
recursive functions on the character list of a string, so every definition
evaluates inside the kernel: `re.sub` with a metacharacter-free pattern is
`re_sub` (replace every non-overlapping occurrence, left to right),
`str.rstrip()` is `rstrip`, `str.upper()` is `strUpper` (the ISA strings
involved are ASCII), and `str.split(",")` is `splitOnComma`.
-/

namespace RunPy

/-- Replace every non-overlapping occurrence of `pat` by `rep`, scanning
left to right; `fuel` bounds the recursion and is instantiated with the
length of the scanned text, which suffices because every step consumes at
least one character when `pat` is nonempty. -/
def listReplaceAux (pat rep : List Char) : Nat → List Char → List Char
  | _, [] => []
  | 0, l => l
  | fuel + 1, c :: rest =>
    if pat.isPrefixOf (c :: rest) then
      rep ++ listReplaceAux pat rep fuel ((c :: rest).drop pat.length)
    else
      c :: listReplaceAux pat rep fuel rest

/-- Model of `re.sub(pat, rep, s)` for a metacharacter-free (hence literal)
pattern: textual, single-pass, not re-entrant. -/
def re_sub (pat rep s : String) : String :=
  String.mk (listReplaceAux pat.data rep.data s.data.length s.data)

/-- Model of `str.rstrip()`: drop trailing whitespace. -/
def rstrip (s : String) : String :=
  String.mk ((s.data.reverse.dropWhile Char.isWhitespace).reverse)

/-- Model of `str.upper()` on ASCII strings. -/
def strUpper (s : String) : String :=
  String.mk (s.data.map Char.toUpper)

/-- Accumulator pass of `splitOnComma`. -/
def splitOnCommaAux : List Char → List Char → List String
  | [], cur => [String.mk cur.reverse]
  | c :: rest, cur =>
    if c = ',' then String.mk cur.reverse :: splitOnCommaAux rest []
    else splitOnCommaAux rest (c :: cur)

/-- Model of `str.split(",")`: split at every comma, keeping empty pieces,
and yielding `[""]` on the empty string. -/
def splitOnComma (s : String) : List String :=
  splitOnCommaAux s.data []

/-- Does `pat` occur as a contiguous substring?  Models what `grep` matches
a line against (and Python `in`). -/
def listContainsSub (pat : List Char) : List Char → Bool
  | [] => pat.isEmpty
  | c :: rest => pat.isPrefixOf (c :: rest) || listContainsSub pat rest

/-- String-level wrapper of `listContainsSub`. -/
def containsSub (pat s : String) : Bool :=
  listContainsSub pat.data s.data

/-- One entry of the regression test list (`test_list` elements): the fields
of the dictionaries consumed by `gen`, `iss_sim` and `iss_cmp`. -/
structure TestEntry where
  test : String
  iterations : Nat
  uvm_test : String
deriving Repr, DecidableEq

/-- One entry of the RTL simulator YAML consumed by `get_generator_cmd`. -/
structure SimEntry where
  tool : String
  compile_cmd : List String
  sim_cmd : String
deriving Repr, DecidableEq

/-- One entry of the ISS YAML consumed by `parse_iss_yaml`. -/
structure IssEntry where
  iss : String
  cmd : String
  path_var : String
deriving Repr, DecidableEq

/-- Observable behaviour of one external command: its exit status, its
combined stdout and stderr, and how long it runs (the duration only matters
to the generator run step, whose `subprocess.check_output` call has a
timeout). -/
structure CmdBehavior where
  exitCode : Nat
  output : String
  duration : Nat
deriving Repr, DecidableEq

/-- Oracle for external command execution, keyed by the command string. -/
def World : Type := String → CmdBehavior

/-- Oracle for `os.environ` (`none` models an unset variable). -/
def Env : Type := String → Option String

/-- One recorded external invocation: the command string and the timeout
bound passed to the subprocess call, if any. -/
structure Invocation where
  cmd : String
  timeout : Option Nat
deriving Repr, DecidableEq

/-- `get_env_var` (run.py lines 29-43): returns the value of the variable,
or terminates the process (`sys.exit(1)`) after printing a message when the
variable is unset. -/
def get_env_var (env : Env) (var : String) : Except String String :=
  match env var with
  | some v => Except.ok v
  | none => Except.error ("Please set the environment variable " ++ var)

/-- `get_generator_cmd` (run.py lines 46-67): linear scan of the RTL
simulator YAML for the first entry whose `tool` field equals the requested
simulator name (Python `==` on strings, exact and case sensitive); returns
the compile and sim commands of that entry, or exits fatally naming the
missing simulator. -/
def get_generator_cmd (simulator : String) :
    List SimEntry → Except String (List String × String)
  | [] => Except.error ("Cannot find RTL simulator " ++ simulator)
  | entry :: rest =>
    if entry.tool == simulator then Except.ok (entry.compile_cmd, entry.sim_cmd)
    else get_generator_cmd simulator rest

/-- The value substituted for the `<variant>` placeholder by
`parse_iss_yaml` (run.py lines 89-92): the upper-cased ISA for "ovpsim",
the ISA as given for every other tool. -/
def variant_value (iss isa : String) : String :=
  if iss == "ovpsim" then strUpper isa else isa

/-- Body of the matching branch of `parse_iss_yaml` (run.py lines 86-93):
`rstrip` the command template, substitute `<path_var>` with the value of the
environment variable named by the entry (fatal if unset), then substitute
`<variant>` with the upper-cased ISA when the ISS is "ovpsim" and with the
ISA as given otherwise. -/
def parse_iss_entry (env : Env) (iss : String) (entry : IssEntry) (isa : String) :
    Except String String :=
  match get_env_var env entry.path_var with
  | Except.error e => Except.error e
  | Except.ok pv =>
    let c1 := re_sub "<path_var>" pv (rstrip entry.cmd)
    Except.ok (if iss == "ovpsim" then re_sub "<variant>" (strUpper isa) c1
               else re_sub "<variant>" isa c1)

/-- `parse_iss_yaml` (run.py lines 70-95): linear scan of the ISS YAML for
the first entry whose `iss` field equals the requested ISS name; resolves
the command template of that entry, or exits fatally naming the missing
ISS. -/
def parse_iss_yaml (env : Env) (iss : String) :
    List IssEntry → (isa : String) → Except String String
  | [], _ => Except.error ("Cannot find ISS " ++ iss)
  | entry :: rest, isa =>
    if entry.iss == iss then parse_iss_entry env iss entry isa
    else parse_iss_yaml env iss rest isa

/-- `get_iss_cmd` (run.py lines 98-111): substitute `<elf>` in the template
and append the output redirection. -/
def get_iss_cmd (base_cmd elf log : String) : String :=
  (re_sub "<elf>" elf base_cmd) ++ " &> " ++ log

/-- `run_cmd` (run.py lines 114-132).  `subprocess.Popen` raises
`CalledProcessError` in no circumstance (only the `check_*` helpers and
`run(check=True)` do), so the `except` handler is unreachable: the function
returns the combined output of the command unconditionally, regardless of
the exit status of the command, and never terminates the process. -/
def runCmd (w : World) (cmd : String) : String := (w cmd).output

/-- `get_seed` (run.py lines 135-147): a non-negative input seed is used as
given; a negative one is replaced by a fresh 32-bit draw, modelled by an
oracle `rng` indexed by the number of draws made so far. -/
def get_seed (rng : Nat → Nat) (draw : Nat) (seed : Int) : Int :=
  if 0 ≤ seed then seed else Int.ofNat (rng draw % 2 ^ 32)

end RunPy

namespace RunPy

/-- The compile loop of `gen` (run.py lines 170-179): each compile command
template, in listed order, has `<out>` and `<cwd>` substituted and is run
via `runCmd`; the returned pair is the list of issued invocations and the
final value of the Python local `output` (`none` while it is unbound). -/
def genCompileLoop (w : World) (output_dir cwd : String) :
    List String → List Invocation × Option String
  | [] => ([], none)
  | c :: rest =>
    let c2 := re_sub "<cwd>" cwd (re_sub "<out>" output_dir c)
    let out := runCmd w c2
    let (invs, lastOut) := genCompileLoop w output_dir cwd rest
    (Invocation.mk c2 none :: invs, lastOut <|> some out)

/-- The command string built for one generator run (run.py lines 188-193). -/
def gen_run_cmd (lsf_cmd sim_cmd output_dir : String) (t : TestEntry)
    (rand_seed : Int) : String :=
  lsf_cmd ++ " " ++ rstrip sim_cmd
    ++ " +UVM_TESTNAME=" ++ t.uvm_test
    ++ " +num_of_tests=" ++ toString t.iterations
    ++ " +asm_file_name=" ++ output_dir ++ "/asm_tests/" ++ t.test
    ++ " +ntb_random_seed=" ++ toString rand_seed
    ++ " -l " ++ output_dir ++ "/sim_" ++ t.test ++ ".log"

/-- Abort conditions of `gen` as the process observes them. -/
inductive GenAbort where
  /-- `get_generator_cmd` printed the message and called `sys.exit(1)`. -/
  | lookupFailed (msg : String)
  /-- `subprocess.check_output` raised `TimeoutExpired`; the exception is
  not caught (`except` only names `CalledProcessError`), so it propagates
  and kills the process with a traceback. -/
  | timeoutExpired (cmd : String)
  /-- the handler ran `print(output)` while the local `output` was still
  unbound: `UnboundLocalError`, again an uncaught crash. -/
  | unboundLocalError
  /-- the handler printed the current value of the local `output` (the
  result of the previous successful invocation, not of the failed one) and
  called `sys.exit(1)`. -/
  | calledProcessError (printed : String)
deriving Repr, DecidableEq

/-- The run loop of `gen` (run.py lines 185-206): one invocation per test
entry with a positive iteration count, executed with
`subprocess.check_output(..., timeout=300)`; `outputVar` threads the Python
local `output` and `draw` counts the random seed draws. -/
def genRunLoop (w : World) (rng : Nat → Nat) (sim_cmd lsf_cmd output_dir : String)
    (seed : Int) :
    List TestEntry → Option String → Nat → Except GenAbort (List Invocation)
  | [], _, _ => Except.ok []
  | t :: rest, outputVar, draw =>
    if 0 < t.iterations then
      let rand_seed := get_seed rng draw seed
      let cmd := gen_run_cmd lsf_cmd sim_cmd output_dir t rand_seed
      let b := w cmd
      if 300 < b.duration then Except.error (GenAbort.timeoutExpired cmd)
      else if b.exitCode ≠ 0 then
        match outputVar with
        | none => Except.error GenAbort.unboundLocalError
        | some prev => Except.error (GenAbort.calledProcessError prev)
      else
        match genRunLoop w rng sim_cmd lsf_cmd output_dir seed rest (some b.output) (draw + 1) with
        | Except.error a => Except.error a
        | Except.ok tr => Except.ok (Invocation.mk cmd (some 300) :: tr)
    else genRunLoop w rng sim_cmd lsf_cmd output_dir seed rest outputVar draw

/-- `gen` (run.py lines 150-206): resolve the generator commands, run the
compile loop unless `sim_only`, then run the generator run loop unless
`compile_only`.  Returns the issued invocations in order, or the abort that
terminated the process. -/
def gen (w : World) (rng : Nat → Nat) (test_list : List TestEntry)
    (simulator : String) (simulator_yaml : List SimEntry) (output_dir : String)
    (sim_only compile_only : Bool) (lsf_cmd : String) (seed : Int)
    (cwd : String) : Except GenAbort (List Invocation) :=
  match get_generator_cmd simulator simulator_yaml with
  | Except.error msg => Except.error (GenAbort.lookupFailed msg)
  | Except.ok (compile_cmd, sim_cmd) =>
    let compilePhase :=
      if sim_only then (([] : List Invocation), (none : Option String))
      else genCompileLoop w output_dir cwd compile_cmd
    if compile_only then Except.ok compilePhase.1
    else
      let sim_cmd2 := re_sub "<cwd>" cwd (re_sub "<out>" output_dir sim_cmd)
      match genRunLoop w rng sim_cmd2 lsf_cmd output_dir seed test_list compilePhase.2 0 with
      | Except.error a => Except.error a
      | Except.ok tr => Except.ok (compilePhase.1 ++ tr)

/-- Path of the per-iteration object file (`%s/asm_tests/%s.%d.o`). -/
def asm_elf_path (output_dir testName : String) (i : Nat) : String :=
  output_dir ++ "/asm_tests/" ++ testName ++ "." ++ toString i ++ ".o"

/-- Path of the per-simulator per-iteration log
(`%s/%s_sim` joined with `%s.%d.log`). -/
def iss_log_path (output_dir iss testName : String) (i : Nat) : String :=
  output_dir ++ "/" ++ iss ++ "_sim" ++ "/" ++ testName ++ "." ++ toString i ++ ".log"

/-- Inner iteration loop of `iss_sim` (run.py lines 262-270): one `runCmd`
per iteration index, output redirected into the log; the command output is
discarded, exactly as the Python statement discards the `run_cmd` result. -/
def iss_sim_iters (w : World) (base_cmd output_dir iss testName : String) :
    List Nat → List Invocation
  | [] => []
  | i :: rest =>
    let cmd := get_iss_cmd base_cmd (asm_elf_path output_dir testName i)
      (iss_log_path output_dir iss testName i)
    let _out := runCmd w cmd
    Invocation.mk cmd none :: iss_sim_iters w base_cmd output_dir iss testName rest

/-- Test loop of `iss_sim` (run.py lines 261-270). -/
def iss_sim_tests (w : World) (base_cmd output_dir iss : String) :
    List TestEntry → List Invocation
  | [] => []
  | t :: rest =>
    iss_sim_iters w base_cmd output_dir iss t.test (List.range t.iterations)
      ++ iss_sim_tests w base_cmd output_dir iss rest

/-- Outer loop of `iss_sim` over the comma-separated simulator names
(run.py lines 256-270): resolve the run command of each named ISS (fatal if
the lookup or the environment variable fails), then run every test and
iteration. -/
def iss_sim_go (w : World) (env : Env) (test_list : List TestEntry)
    (output_dir : String) (iss_yaml : List IssEntry) (isa : String) :
    List String → Except String (List Invocation)
  | [] => Except.ok []
  | iss :: rest =>
    match parse_iss_yaml env iss iss_yaml isa with
    | Except.error e => Except.error e
    | Except.ok base_cmd =>
      match iss_sim_go w env test_list output_dir iss_yaml isa rest with
      | Except.error e => Except.error e
      | Except.ok tr =>
        Except.ok (iss_sim_tests w base_cmd output_dir iss test_list ++ tr)

/-- `iss_sim` (run.py lines 245-270). -/
def iss_sim (w : World) (env : Env) (test_list : List TestEntry)
    (output_dir iss_list : String) (iss_yaml : List IssEntry) (isa : String) :
    Except String (List Invocation) :=
  iss_sim_go w env test_list output_dir iss_yaml isa (splitOnComma iss_list)

end RunPy

namespace RunPy

/-- Events of the compare stage, at the granularity of the external
commands `iss_cmp` issues through `run_cmd`. -/
inductive CmpEvent where
  /-- `rm -rf <output>/iss_regr.log` (run.py line 286). -/
  | removeReport
  /-- `echo 'Test binary: <elf>' >> report` (run.py line 294). -/
  | appendBinaryLine (elf : String)
  /-- `./iss_cmp <log of firstIss> <log of secondIss> report &>> report`
  (run.py lines 295-299). -/
  | runCompare (firstIss secondIss testName : String) (i : Nat)
  /-- the two `grep | wc -l` scans plus `echo <summary> >> report`
  (run.py lines 302-306). -/
  | appendSummary
deriving Repr, DecidableEq

/-- The in-loop conditional swap of `iss_cmp` (run.py lines 289-290): when
the second element of the mutable pair is "spike", the two elements are
exchanged. -/
def cmpStep (p : String × String) : String × String :=
  if p.2 == "spike" then (p.2, p.1) else p

/-- Iteration loop of `iss_cmp` for one test (run.py lines 288-301),
threading the mutable simulator pair; returns the emitted events and the
final pair. -/
def iss_cmp_iters (output_dir testName : String) :
    List Nat → String × String → List CmpEvent × (String × String)
  | [], p => ([], p)
  | i :: rest, p =>
    let p2 := cmpStep p
    let r := iss_cmp_iters output_dir testName rest p2
    (CmpEvent.appendBinaryLine (asm_elf_path output_dir testName i)
      :: CmpEvent.runCompare p2.1 p2.2 testName i :: r.1, r.2)

/-- Test loop of `iss_cmp` (run.py lines 287-301). -/
def iss_cmp_tests (output_dir : String) :
    List TestEntry → String × String → List CmpEvent × (String × String)
  | [], p => ([], p)
  | t :: rest, p =>
    let r := iss_cmp_iters output_dir t.test (List.range t.iterations) p
    let r2 := iss_cmp_tests output_dir rest r.2
    (r.1 ++ r2.1, r2.2)

/-- `iss_cmp` (run.py lines 273-307) as its event trace: split the
simulator list on commas; a length other than two returns immediately with
no event; otherwise delete the cumulative report, run every comparison, and
append the summary. -/
def iss_cmp_trace (test_list : List TestEntry) (iss : String)
    (output_dir : String) : List CmpEvent :=
  match splitOnComma iss with
  | [a, b] =>
    CmpEvent.removeReport
      :: (iss_cmp_tests output_dir test_list (a, b)).1
      ++ [CmpEvent.appendSummary]
  | _ => []

/-- Model of `grep <marker> report | wc -l` (run.py lines 302-303): the
number of report lines containing the marker as a substring. -/
def grep_wc (marker : String) (lines : List String) : Nat :=
  (lines.filter (fun l => containsSub marker l)).length

/-- The pass and fail counts computed by `iss_cmp` (run.py lines 302-303). -/
def iss_cmp_counts (lines : List String) : Nat × Nat :=
  (grep_wc "PASSED" lines, grep_wc "FAILED" lines)

/-- The summary line `"%s PASSED, %s FAILED"` (run.py line 304). -/
def iss_cmp_summary_line (lines : List String) : String :=
  toString (grep_wc "PASSED" lines) ++ " PASSED, "
    ++ toString (grep_wc "FAILED" lines) ++ " FAILED"

/-- The report after `echo <summary> >> report` (run.py line 306): the same
lines with the summary appended as a trailing line. -/
def iss_cmp_report_after (lines : List String) : List String :=
  lines ++ [iss_cmp_summary_line lines]

/-- The four pipeline stages, in the order the module-level dispatch checks
them (run.py lines 370-384). -/
inductive Stage where
  | gen
  | gcc_compile
  | iss_sim
  | iss_cmp
deriving Repr, DecidableEq

/-- The pattern the dispatch passes to `re.match` for each stage. -/
def stageName : Stage → String
  | Stage.gen => "gen"
  | Stage.gcc_compile => "gcc_compile"
  | Stage.iss_sim => "iss_sim"
  | Stage.iss_cmp => "iss_cmp"

/-- Model of `re.match(pat, s)` for a metacharacter-free pattern: the match
is anchored at the start of `s`, so it succeeds exactly when `pat` is a
prefix of `s`. -/
def re_match_lit (pat s : String) : Bool :=
  pat.data.isPrefixOf s.data

/-- The fixed stage order of the dispatch (run.py lines 370-384). -/
def allStages : List Stage :=
  [Stage.gen, Stage.gcc_compile, Stage.iss_sim, Stage.iss_cmp]

/-- Guard of one dispatch conditional:
`args.steps == "all" or re.match(<stage name>, args.steps)`. -/
def stageRuns (steps : String) (s : Stage) : Bool :=
  steps == "all" || re_match_lit (stageName s) steps

/-- The stages the module-level dispatch executes, in execution order: the
four conditionals of run.py lines 370-384 in their textual order. -/
def selectedStages (steps : String) : List Stage :=
  allStages.filter (stageRuns steps)

/-- Modelled from the spec: `process_regression_list` is imported from
`scripts/testlist_parser`, which is not part of the sources; spec section
4.3 describes it.  "all" selects the entire catalog in declared order; an
exact name selects the entries carrying that name; a positive iteration
override replaces the iteration count of every selected entry. -/
def process_regression_list (catalog : List TestEntry) (test : String)
    (iterations : Nat) : List TestEntry :=
  let sel := if test == "all" then catalog
             else catalog.filter (fun t => t.test == test)
  if 0 < iterations then
    sel.map (fun t => TestEntry.mk t.test iterations t.uvm_test)
  else sel

/-- The module-level selection guard (run.py lines 363-384): build the
matched list; when it is empty, `sys.exit` with a message naming the
missing test and the test list file terminates the process with status 1
before any stage conditional is reached; otherwise the dispatch proceeds
with the matched list and the selected stages. -/
def pipeline_dispatch (catalog : List TestEntry) (test testlist steps : String)
    (iterations : Nat) : Except (Nat × String) (List TestEntry × List Stage) :=
  let matched := process_regression_list catalog test iterations
  if matched.length = 0 then
    Except.error (1, "Cannot find " ++ test ++ " in " ++ testlist)
  else
    Except.ok (matched, selectedStages steps)

/-- The tool-lookup contract as the spec states it (spec sections 4.2 and
8), written with `List.find?` for comparison with the source-derived
`get_generator_cmd`: return the command data of the first entry whose tool
name equals the requested name, otherwise fail naming the missing tool. -/
def rtl_lookup_contract (simulator : String) (yaml : List SimEntry) :
    Except String (List String × String) :=
  match yaml.find? (fun e => e.tool == simulator) with
  | some e => Except.ok (e.compile_cmd, e.sim_cmd)
  | none => Except.error ("Cannot find RTL simulator " ++ simulator)

/-- The tool-lookup contract for the ISS collection (spec sections 4.2 and
8), written with `List.find?` for comparison with the source-derived
`parse_iss_yaml`: resolve the command of the first entry whose ISS name
equals the requested name, otherwise fail naming the missing ISS. -/
def iss_lookup_contract (env : Env) (iss : String) (yaml : List IssEntry)
    (isa : String) : Except String String :=
  match yaml.find? (fun e => e.iss == iss) with
  | some e => parse_iss_entry env iss e isa
  | none => Except.error ("Cannot find ISS " ++ iss)

end RunPy

namespace RunPy

/-- C4: tool profile lookup for both the RTL-simulator collection and the
ISS collection scans the profile collection linearly and returns the
command data of the first entry whose tool-name field equals the requested
name exactly and case-sensitively; if no entry matches, it reports the
missing tool name and terminates the pipeline fatally, never returning a
default.  Stated as: both source-derived lookups coincide with the
first-match-or-fatal-error contract. -/
theorem tool_lookup_first_match_or_fatal (simulator : String)
    (yaml_s : List SimEntry) (env : Env) (iss : String)
    (yaml_i : List IssEntry) (isa : String) :
    get_generator_cmd simulator yaml_s = rtl_lookup_contract simulator yaml_s
    ∧ parse_iss_yaml env iss yaml_i isa = iss_lookup_contract env iss yaml_i isa := by
  constructor
  · induction yaml_s with
    | nil => rfl
    | cons e rest ih =>
      by_cases h : e.tool == simulator
      · simp [get_generator_cmd, rtl_lookup_contract, List.find?, h]
      · simp only [Bool.not_eq_true] at h
        simp [get_generator_cmd, rtl_lookup_contract, List.find?, h] at ih ⊢
        exact ih
  · induction yaml_i with
    | nil => rfl
    | cons e rest ih =>
      by_cases h : e.iss == iss
      · simp [parse_iss_yaml, iss_lookup_contract, List.find?, h]
      · simp only [Bool.not_eq_true] at h
        simp [parse_iss_yaml, iss_lookup_contract, List.find?, h] at ih ⊢
        exact ih

/-- Witness for C4 at concrete inputs: a present tool resolves to the first
matching entry, and absent tools fail fatally with the message naming
them. -/
theorem tool_lookup_first_match_or_fatal_witness :
    get_generator_cmd "vcs"
        [SimEntry.mk "ius" ["irun"] "irun -R", SimEntry.mk "vcs" ["vcs <cwd>"] "simv"]
      = Except.ok (["vcs <cwd>"], "simv")
    ∧ parse_iss_yaml (fun _ => none) "qemu"
        [IssEntry.mk "spike" "spike <elf>" "SPIKE_PATH"] "rv64gc"
      = Except.error ("Cannot find ISS " ++ "qemu") := by
  have h := tool_lookup_first_match_or_fatal "vcs"
    [SimEntry.mk "ius" ["irun"] "irun -R", SimEntry.mk "vcs" ["vcs <cwd>"] "simv"]
    (fun _ => none) "qemu" [IssEntry.mk "spike" "spike <elf>" "SPIKE_PATH"] "rv64gc"
  exact ⟨by rw [h.1]; rfl, by rw [h.2]; rfl⟩

/-- Resolution lemma shared by several results: when the ISS is found and
its environment variable is set, `parse_iss_yaml` returns the template of
the first matching entry with `<path_var>` and `<variant>` substituted. -/
theorem parse_iss_yaml_resolves (env : Env) (iss : String)
    (yaml : List IssEntry) (isa : String) (e : IssEntry) (pv : String)
    (hfind : yaml.find? (fun en => en.iss == iss) = some e)
    (henv : env e.path_var = some pv) :
    parse_iss_yaml env iss yaml isa =
      Except.ok (re_sub "<variant>" (variant_value iss isa)
        (re_sub "<path_var>" pv (rstrip e.cmd))) := by
  have hentry : parse_iss_entry env iss e isa =
      Except.ok (re_sub "<variant>" (variant_value iss isa)
        (re_sub "<path_var>" pv (rstrip e.cmd))) := by
    by_cases h : iss == "ovpsim" <;>
      simp [parse_iss_entry, get_env_var, henv, variant_value, h]
  induction yaml with
  | nil => simp [List.find?] at hfind
  | cons en rest ih =>
    by_cases h : en.iss == iss
    · simp [List.find?, h] at hfind
      subst hfind
      simp [parse_iss_yaml, h, hentry]
    · rw [show List.find? (fun en => en.iss == iss) (en :: rest)
            = List.find? (fun en => en.iss == iss) rest by
          simp [List.find?, h]] at hfind
      simp only [Bool.not_eq_true] at h
      simp [parse_iss_yaml, h]
      exact ih hfind

/-- C8: when resolving an ISS run-command template, the ISA variant is
upper-cased before substitution exactly when the target tool is "ovpsim";
every other tool receives the variant with its original case
(`variant_value` is the conditional upper-casing). -/
theorem parse_iss_yaml_variant_case (env : Env) (iss : String)
    (yaml : List IssEntry) (isa : String) (e : IssEntry) (pv : String)
    (hfind : yaml.find? (fun en => en.iss == iss) = some e)
    (henv : env e.path_var = some pv) :
    parse_iss_yaml env iss yaml isa =
      Except.ok (re_sub "<variant>" (variant_value iss isa)
        (re_sub "<path_var>" pv (rstrip e.cmd))) :=
  parse_iss_yaml_resolves env iss yaml isa e pv hfind henv

/-- Witness for C8 at concrete inputs: resolving for "ovpsim" upper-cases
the variant, and the hypotheses hold by evaluation. -/
theorem parse_iss_yaml_variant_case_witness :
    ([IssEntry.mk "ovpsim" "run <path_var> -v <variant> <elf> " "OVP"].find?
        (fun en => en.iss == "ovpsim")
      = some (IssEntry.mk "ovpsim" "run <path_var> -v <variant> <elf> " "OVP"))
    ∧ parse_iss_yaml (fun v => if v == "OVP" then some "/opt/ovp" else none)
        "ovpsim" [IssEntry.mk "ovpsim" "run <path_var> -v <variant> <elf> " "OVP"]
        "rv64gc"
      = Except.ok "run /opt/ovp -v RV64GC <elf>" := by
  have h := parse_iss_yaml_variant_case
    (fun v => if v == "OVP" then some "/opt/ovp" else none) "ovpsim"
    [IssEntry.mk "ovpsim" "run <path_var> -v <variant> <elf> " "OVP"] "rv64gc"
    (IssEntry.mk "ovpsim" "run <path_var> -v <variant> <elf> " "OVP") "/opt/ovp"
    (by rfl) (by rfl)
  exact ⟨by rfl, by rw [h]; rfl⟩

end RunPy

namespace RunPy

/-- C7: for a report whose lines contain the marker "PASSED" exactly `P`
times and the marker "FAILED" exactly `F` times (counted line-wise, as
`grep | wc -l` does), the aggregation reports `passed_count = P` and
`failed_count = F` and appends to the same report the trailing summary line
`"<passed> PASSED, <failed> FAILED"`. -/
theorem aggregation_counts_and_summary (lines : List String) (P F : Nat)
    (hP : lines.countP (fun l => containsSub "PASSED" l) = P)
    (hF : lines.countP (fun l => containsSub "FAILED" l) = F) :
    iss_cmp_counts lines = (P, F)
    ∧ iss_cmp_report_after lines
        = lines ++ [toString P ++ " PASSED, " ++ toString F ++ " FAILED"] := by
  have hgP : grep_wc "PASSED" lines = P := by
    rw [grep_wc, ← List.countP_eq_length_filter]
    exact hP
  have hgF : grep_wc "FAILED" lines = F := by
    rw [grep_wc, ← List.countP_eq_length_filter]
    exact hF
  constructor
  · rw [iss_cmp_counts, hgP, hgF]
  · rw [iss_cmp_report_after, iss_cmp_summary_line, hgP, hgF]

/-- Witness for C7 at a concrete report: two lines carry "PASSED", one
carries "FAILED", the counts are (2, 1) and the appended summary line is
"2 PASSED, 1 FAILED". -/
theorem aggregation_counts_and_summary_witness :
    iss_cmp_counts ["Test binary: out/asm_tests/t0.0.o", "[PASSED]", "x FAILED", "PASSED"]
      = (2, 1)
    ∧ iss_cmp_report_after
        ["Test binary: out/asm_tests/t0.0.o", "[PASSED]", "x FAILED", "PASSED"]
      = ["Test binary: out/asm_tests/t0.0.o", "[PASSED]", "x FAILED", "PASSED",
         "2 PASSED, 1 FAILED"] := by
  have h := aggregation_counts_and_summary
    ["Test binary: out/asm_tests/t0.0.o", "[PASSED]", "x FAILED", "PASSED"] 2 1
    (by decide) (by decide)
  exact ⟨h.1, by rw [h.2]; rfl⟩

/-- C9: when the requested test name matches no catalog entry, the pipeline
terminates immediately with exit status 1 and a message naming the missing
test and the test list file, before producing any matched list or stage
dispatch; it never proceeds as a silently empty run. -/
theorem empty_selection_fatal (catalog : List TestEntry)
    (test testlist steps : String) (iterations : Nat)
    (hall : test ≠ "all")
    (habsent : ∀ t ∈ catalog, t.test ≠ test) :
    pipeline_dispatch catalog test testlist steps iterations
      = Except.error (1, "Cannot find " ++ test ++ " in " ++ testlist) := by
  have hbeq : (test == "all") = false := by
    simpa using hall
  have hfilter : catalog.filter (fun t => t.test == test) = [] := by
    rw [List.filter_eq_nil_iff]
    intro t ht
    simpa using habsent t ht
  unfold pipeline_dispatch process_regression_list
  rw [hbeq]
  by_cases hi : 0 < iterations <;> simp [hi, hfilter]

/-- Witness for C9 at concrete inputs: requesting an absent test name fails
with status 1 and the message naming it. -/
theorem empty_selection_fatal_witness :
    ("riscv_rand_test" ≠ "all")
    ∧ (∀ t ∈ [TestEntry.mk "t0" 2 "u0"], t.test ≠ "riscv_rand_test")
    ∧ pipeline_dispatch [TestEntry.mk "t0" 2 "u0"] "riscv_rand_test"
        "yaml/testlist.yaml" "all" 0
      = Except.error (1, "Cannot find " ++ "riscv_rand_test" ++ " in "
          ++ "yaml/testlist.yaml") := by
  refine ⟨by decide, by decide, ?_⟩
  exact empty_selection_fatal [TestEntry.mk "t0" 2 "u0"] "riscv_rand_test"
    "yaml/testlist.yaml" "all" 0 (by decide) (by decide)

end RunPy

namespace RunPy

/-- C5 counterexample: the requested-steps configuration cannot select an
arbitrary subset of stages.  Requesting the subset consisting of the
Compile and Simulate stages in the documented comma-separated syntax runs
only the Compile stage: `re.match` anchors each stage pattern at the start
of the whole steps string, so "iss_sim" is not matched by
"gcc_compile,iss_sim". -/
theorem steps_subset_counterexample :
    selectedStages "gcc_compile,iss_sim" = [Stage.gcc_compile]
    ∧ selectedStages "gcc_compile,iss_sim" ≠ [Stage.gcc_compile, Stage.iss_sim]
    ∧ Stage.iss_sim ∉ selectedStages "gcc_compile,iss_sim" := by
  refine ⟨by decide, by decide, by decide⟩

/-- C5 amended: the dispatch checks the four stages in the fixed order
Generate, Compile, Simulate, Compare, and runs a stage exactly when the
steps string is "all" or the stage name is a prefix of the steps string
(`re.match` semantics); selected stages are therefore always a sublist of
the fixed order, never reordered, and requesting "iss_cmp" runs exactly the
Compare stage, skipping generate, compile and simulate. -/
theorem steps_prefix_dispatch :
    selectedStages "all" = allStages
    ∧ selectedStages "iss_cmp" = [Stage.iss_cmp]
    ∧ (∀ steps : String, List.Sublist (selectedStages steps) allStages)
    ∧ (∀ steps : String, ∀ s : Stage,
        s ∈ selectedStages steps
          ↔ (steps = "all" ∨ re_match_lit (stageName s) steps = true)) := by
  refine ⟨by decide, by decide, ?_, ?_⟩
  · intro steps
    exact List.filter_sublist allStages
  · intro steps s
    have hmem : s ∈ allStages := by cases s <;> simp [allStages]
    simp [selectedStages, List.mem_filter, hmem, stageRuns]

/-- The compare loops never emit the report-deletion event (iteration
level). -/
theorem iss_cmp_iters_no_remove (od tn : String) (l : List Nat)
    (p : String × String) :
    CmpEvent.removeReport ∉ (iss_cmp_iters od tn l p).1 := by
  induction l generalizing p with
  | nil => simp [iss_cmp_iters]
  | cons i rest ih =>
    simp only [iss_cmp_iters, List.mem_cons]
    push_neg
    exact ⟨by simp, by simp, fun h => (ih (cmpStep p)) h⟩

/-- The compare loops never emit the report-deletion event (test level). -/
theorem iss_cmp_tests_no_remove (od : String) (tl : List TestEntry)
    (p : String × String) :
    CmpEvent.removeReport ∉ (iss_cmp_tests od tl p).1 := by
  induction tl generalizing p with
  | nil => simp [iss_cmp_tests]
  | cons t rest ih =>
    simp only [iss_cmp_tests, List.mem_append]
    push_neg
    exact ⟨iss_cmp_iters_no_remove od t.test (List.range t.iterations) p,
      ih (iss_cmp_iters od t.test (List.range t.iterations) p).2⟩

/-- C10: whenever the compare stage emits any event at all, its very first
event — before any entry is appended to the cumulative report — is the
deletion of the pre-existing report file, and the deletion happens exactly
once, so the report reflects only the comparisons of the current run. -/
theorem report_deleted_before_any_append (tl : List TestEntry)
    (iss od : String) :
    iss_cmp_trace tl iss od = []
    ∨ ∃ tail, iss_cmp_trace tl iss od = CmpEvent.removeReport :: tail
        ∧ CmpEvent.removeReport ∉ tail := by
  rcases hsplit : splitOnComma iss with _ | ⟨a, _ | ⟨b, _ | ⟨c, rest⟩⟩⟩
  · left
    unfold iss_cmp_trace
    rw [hsplit]
  · left
    unfold iss_cmp_trace
    rw [hsplit]
  · right
    refine ⟨(iss_cmp_tests od tl (a, b)).1 ++ [CmpEvent.appendSummary], ?_, ?_⟩
    · unfold iss_cmp_trace
      rw [hsplit]
      rfl
    · intro hmem
      rcases List.mem_append.mp hmem with h1 | h2
      · exact iss_cmp_tests_no_remove od tl (a, b) h1
      · simp at h2
  · left
    unfold iss_cmp_trace
    rw [hsplit]

end RunPy

namespace RunPy

/-- The conditional swap is idempotent: once the reference simulator is in
front, further iterations leave the pair unchanged. -/
theorem cmpStep_idem (p : String × String) : cmpStep (cmpStep p) = cmpStep p := by
  rcases p with ⟨x, y⟩
  by_cases h : y = "spike"
  · subst h
    by_cases h2 : x = "spike" <;> simp [cmpStep, h2]
  · simp [cmpStep, h]

/-- Every comparison emitted by the iteration loop uses the pair obtained
from the incoming pair by one conditional swap, and the outgoing pair is
equivalent to the incoming one modulo that swap. -/
theorem iss_cmp_iters_pairs (od tn : String) (l : List Nat)
    (p : String × String) :
    (∀ x y t i, CmpEvent.runCompare x y t i ∈ (iss_cmp_iters od tn l p).1 →
      (x, y) = cmpStep p)
    ∧ cmpStep (iss_cmp_iters od tn l p).2 = cmpStep p := by
  induction l generalizing p with
  | nil =>
    refine ⟨?_, rfl⟩
    intro x y t i h
    simp [iss_cmp_iters] at h
  | cons i rest ih =>
    constructor
    · intro x y t j hmem
      simp only [iss_cmp_iters, List.mem_cons] at hmem
      rcases hmem with h1 | h2 | h3
      · exact absurd h1 (by simp)
      · injection h2 with hx hy ht hi
        subst hx
        subst hy
        rfl
      · have := (ih (cmpStep p)).1 x y t j h3
        rw [this, cmpStep_idem]
    · simp only [iss_cmp_iters]
      rw [(ih (cmpStep p)).2, cmpStep_idem]

/-- Lifting of `iss_cmp_iters_pairs` to the loop over tests. -/
theorem iss_cmp_tests_pairs (od : String) (tl : List TestEntry)
    (p : String × String) :
    (∀ x y t i, CmpEvent.runCompare x y t i ∈ (iss_cmp_tests od tl p).1 →
      (x, y) = cmpStep p)
    ∧ cmpStep (iss_cmp_tests od tl p).2 = cmpStep p := by
  induction tl generalizing p with
  | nil =>
    refine ⟨?_, rfl⟩
    intro x y t i h
    simp [iss_cmp_tests] at h
  | cons t rest ih =>
    have hiters := iss_cmp_iters_pairs od t.test (List.range t.iterations) p
    have hrest := ih (iss_cmp_iters od t.test (List.range t.iterations) p).2
    constructor
    · intro x y tn j hmem
      simp only [iss_cmp_tests, List.mem_append] at hmem
      rcases hmem with h1 | h2
      · exact hiters.1 x y tn j h1
      · rw [hrest.1 x y tn j h2, hiters.2]
    · simp only [iss_cmp_tests]
      rw [hrest.2, hiters.2]

/-- C6: the compare stage is a no-op unless the simulator list contains
exactly two names; when it runs with pair (a, b), every per-iteration
comparison uses (b, a) when b is "spike" — the reference simulator becomes
the first operand — and (a, b) otherwise. -/
theorem compare_pair_order (tl : List TestEntry) (iss od : String) :
    ((splitOnComma iss).length ≠ 2 → iss_cmp_trace tl iss od = [])
    ∧ (∀ a b, splitOnComma iss = [a, b] →
        ∀ x y t i, CmpEvent.runCompare x y t i ∈ iss_cmp_trace tl iss od →
          (x, y) = (if b == "spike" then (b, a) else (a, b))) := by
  constructor
  · intro hlen
    rcases hsplit : splitOnComma iss with _ | ⟨a, _ | ⟨b, _ | ⟨c, rest⟩⟩⟩
    · unfold iss_cmp_trace
      rw [hsplit]
    · unfold iss_cmp_trace
      rw [hsplit]
    · rw [hsplit] at hlen
      simp at hlen
    · unfold iss_cmp_trace
      rw [hsplit]
  · intro a b hsplit x y t i hmem
    unfold iss_cmp_trace at hmem
    rw [hsplit] at hmem
    have hmem2 : CmpEvent.runCompare x y t i ∈ (iss_cmp_tests od tl (a, b)).1 := by
      rw [List.mem_append] at hmem
      rcases hmem with h0 | h3
      · rw [List.mem_cons] at h0
        rcases h0 with h1 | h2
        · exact absurd h1 (by simp)
        · exact h2
      · exact absurd h3 (by simp)
    have hpair := (iss_cmp_tests_pairs od tl (a, b)).1 x y t i hmem2
    rw [hpair]
    rfl

/-- Witness for C6 at concrete inputs: for the pair ("ovpsim", "spike")
every comparison runs with "spike" as the first operand. -/
theorem compare_pair_order_witness :
    splitOnComma "ovpsim,spike" = ["ovpsim", "spike"]
    ∧ (∀ x y t i,
        CmpEvent.runCompare x y t i
            ∈ iss_cmp_trace [TestEntry.mk "t0" 1 "u0"] "ovpsim,spike" "o" →
          (x, y) = ("spike", "ovpsim")) := by
  have h := (compare_pair_order [TestEntry.mk "t0" 1 "u0"] "ovpsim,spike" "o").2
    "ovpsim" "spike" (by decide)
  refine ⟨by decide, ?_⟩
  intro x y t i hmem
  rw [h x y t i hmem]
  decide

end RunPy

namespace RunPy

/-- The iteration loop of the simulate stage does not inspect the command
behaviour oracle: the output of every invocation is discarded, so the
issued trace is the same in every world. -/
theorem iss_sim_iters_world_indep (w w2 : World) (b od iss tn : String)
    (l : List Nat) :
    iss_sim_iters w b od iss tn l = iss_sim_iters w2 b od iss tn l := by
  induction l with
  | nil => rfl
  | cons i rest ih => simp [iss_sim_iters, ih]

/-- World independence lifted to the test loop. -/
theorem iss_sim_tests_world_indep (w w2 : World) (b od iss : String)
    (tl : List TestEntry) :
    iss_sim_tests w b od iss tl = iss_sim_tests w2 b od iss tl := by
  induction tl with
  | nil => rfl
  | cons t rest ih =>
    simp [iss_sim_tests, ih, iss_sim_iters_world_indep w w2 b od iss t.test]

/-- World independence lifted to the loop over simulator names. -/
theorem iss_sim_go_world_indep (w w2 : World) (env : Env)
    (tl : List TestEntry) (od : String) (yaml : List IssEntry) (isa : String)
    (names : List String) :
    iss_sim_go w env tl od yaml isa names = iss_sim_go w2 env tl od yaml isa names := by
  induction names with
  | nil => rfl
  | cons n rest ih =>
    simp only [iss_sim_go]
    cases parse_iss_yaml env n yaml isa with
    | error e => rfl
    | ok base =>
      simp only [ih, iss_sim_tests_world_indep w w2 base od n tl]

/-- Every invocation of the iteration loop is issued without a timeout. -/
theorem iss_sim_iters_no_timeout (w : World) (b od iss tn : String)
    (l : List Nat) :
    ∀ inv ∈ iss_sim_iters w b od iss tn l, inv.timeout = none := by
  induction l with
  | nil => intro inv h; simp [iss_sim_iters] at h
  | cons i rest ih =>
    intro inv h
    rcases List.mem_cons.mp h with h1 | h2
    · rw [h1]
    · exact ih inv h2

/-- Every invocation of the test loop is issued without a timeout. -/
theorem iss_sim_tests_no_timeout (w : World) (b od iss : String)
    (tl : List TestEntry) :
    ∀ inv ∈ iss_sim_tests w b od iss tl, inv.timeout = none := by
  induction tl with
  | nil => intro inv h; simp [iss_sim_tests] at h
  | cons t rest ih =>
    intro inv h
    rcases List.mem_append.mp h with h1 | h2
    · exact iss_sim_iters_no_timeout w b od iss t.test (List.range t.iterations) inv h1
    · exact ih inv h2

/-- The iteration loop issues the invocation of every listed index. -/
theorem iss_sim_iters_mem (w : World) (b od iss tn : String) (l : List Nat)
    (i : Nat) (hi : i ∈ l) :
    Invocation.mk (get_iss_cmd b (asm_elf_path od tn i) (iss_log_path od iss tn i))
        none
      ∈ iss_sim_iters w b od iss tn l := by
  induction l with
  | nil => simp at hi
  | cons j rest ih =>
    rcases List.mem_cons.mp hi with h1 | h2
    · subst h1
      simp [iss_sim_iters]
    · simp only [iss_sim_iters]
      exact List.mem_cons_of_mem _ (ih h2)

/-- The test loop issues the invocation of every iteration of every listed
test. -/
theorem iss_sim_tests_mem (w : World) (b od iss : String)
    (tl : List TestEntry) (t : TestEntry) (ht : t ∈ tl) (i : Nat)
    (hi : i < t.iterations) :
    Invocation.mk (get_iss_cmd b (asm_elf_path od t.test i) (iss_log_path od iss t.test i))
        none
      ∈ iss_sim_tests w b od iss tl := by
  induction tl with
  | nil => simp at ht
  | cons t2 rest ih =>
    rcases List.mem_cons.mp ht with h1 | h2
    · subst h1
      simp only [iss_sim_tests]
      exact List.mem_append_left _
        (iss_sim_iters_mem w b od iss t.test (List.range t.iterations) i
          (List.mem_range.mpr hi))
    · simp only [iss_sim_tests]
      exact List.mem_append_right _ (ih h2)

/-- Resolvability of every name in a list, as an executable check: the
first matching YAML entry exists and its environment variable is set. -/
def iss_names_resolvable (env : Env) (yaml : List IssEntry)
    (names : List String) : Bool :=
  names.all (fun name =>
    (Option.bind (yaml.find? (fun en => en.iss == name))
      (fun e => env e.path_var)).isSome)

/-- Under resolvability, the loop over simulator names returns a trace. -/
theorem iss_sim_go_ok (w : World) (env : Env) (tl : List TestEntry)
    (od : String) (yaml : List IssEntry) (isa : String) (names : List String)
    (h : iss_names_resolvable env yaml names = true) :
    ∃ tr, iss_sim_go w env tl od yaml isa names = Except.ok tr := by
  induction names with
  | nil => exact ⟨[], rfl⟩
  | cons n rest ih =>
    rw [iss_names_resolvable, List.all_cons, Bool.and_eq_true] at h
    obtain ⟨hn, hrest⟩ := h
    cases hf : yaml.find? (fun en => en.iss == n) with
    | none => rw [hf] at hn; simp at hn
    | some e =>
      cases he : env e.path_var with
      | none => rw [hf, Option.bind] at hn; simp [he] at hn
      | some pv =>
        obtain ⟨tr2, htr2⟩ := ih hrest
        refine ⟨iss_sim_tests w (re_sub "<variant>" (variant_value n isa)
          (re_sub "<path_var>" pv (rstrip e.cmd))) od n tl ++ tr2, ?_⟩
        simp only [iss_sim_go]
        rw [parse_iss_yaml_resolves env n yaml isa e pv hf he, htr2]

end RunPy

namespace RunPy

/-- No invocation of the simulate stage carries a timeout. -/
theorem iss_sim_go_no_timeout (w : World) (env : Env) (tl : List TestEntry)
    (od : String) (yaml : List IssEntry) (isa : String) (names : List String)
    (tr : List Invocation)
    (hgo : iss_sim_go w env tl od yaml isa names = Except.ok tr) :
    ∀ inv ∈ tr, inv.timeout = none := by
  induction names generalizing tr with
  | nil =>
    simp only [iss_sim_go] at hgo
    cases hgo
    intro inv h
    simp at h
  | cons n rest ih =>
    simp only [iss_sim_go] at hgo
    cases hp : parse_iss_yaml env n yaml isa with
    | error e => rw [hp] at hgo; cases hgo
    | ok base =>
      rw [hp] at hgo
      cases hr : iss_sim_go w env tl od yaml isa rest with
      | error e => rw [hr] at hgo; cases hgo
      | ok tr2 =>
        rw [hr] at hgo
        cases hgo
        intro inv h
        rcases List.mem_append.mp h with h1 | h2
        · exact iss_sim_tests_no_timeout w base od n tl inv h1
        · exact ih tr2 hr inv h2

/-- Completeness of the simulate stage trace: the invocation of every
(simulator, test, iteration) combination is issued. -/
theorem iss_sim_go_mem (w : World) (env : Env) (tl : List TestEntry)
    (od : String) (yaml : List IssEntry) (isa : String) (names : List String)
    (tr : List Invocation)
    (hgo : iss_sim_go w env tl od yaml isa names = Except.ok tr)
    (name : String) (hn : name ∈ names) (base : String)
    (hbase : parse_iss_yaml env name yaml isa = Except.ok base)
    (t : TestEntry) (ht : t ∈ tl) (i : Nat) (hi : i < t.iterations) :
    Invocation.mk (get_iss_cmd base (asm_elf_path od t.test i)
        (iss_log_path od name t.test i)) none
      ∈ tr := by
  induction names generalizing tr with
  | nil => simp at hn
  | cons n rest ih =>
    simp only [iss_sim_go] at hgo
    cases hp : parse_iss_yaml env n yaml isa with
    | error e => rw [hp] at hgo; cases hgo
    | ok b =>
      rw [hp] at hgo
      cases hr : iss_sim_go w env tl od yaml isa rest with
      | error e => rw [hr] at hgo; cases hgo
      | ok tr2 =>
        rw [hr] at hgo
        cases hgo
        rcases List.mem_cons.mp hn with h1 | h2
        · subst h1
          rw [hbase] at hp
          injection hp with hb
          subst hb
          exact List.mem_append_left _ (iss_sim_tests_mem w base od name tl t ht i hi)
        · exact List.mem_append_right _ (ih tr2 hr h2)

/-- C3: in the simulate stage, no invocation carries a timeout, and a
nonzero exit of a per-iteration simulation does not abort: provided every
named simulator resolves, the stage succeeds with the same invocation trace
in every world — in particular in a world where every command exits
nonzero — and the trace contains the invocation of every test case and
iteration index for every named simulator. -/
theorem sim_stage_no_timeout_no_abort (w w2 : World) (env : Env)
    (tl : List TestEntry) (od iss_list : String) (yaml : List IssEntry)
    (isa : String)
    (hres : iss_names_resolvable env yaml (splitOnComma iss_list) = true) :
    ∃ tr, iss_sim w env tl od iss_list yaml isa = Except.ok tr
      ∧ iss_sim w2 env tl od iss_list yaml isa = Except.ok tr
      ∧ (∀ inv ∈ tr, inv.timeout = none)
      ∧ (∀ name ∈ splitOnComma iss_list, ∀ base,
          parse_iss_yaml env name yaml isa = Except.ok base →
          ∀ t ∈ tl, ∀ i < t.iterations,
            Invocation.mk (get_iss_cmd base (asm_elf_path od t.test i)
              (iss_log_path od name t.test i)) none ∈ tr) := by
  obtain ⟨tr, htr⟩ := iss_sim_go_ok w env tl od yaml isa (splitOnComma iss_list) hres
  refine ⟨tr, htr, ?_, ?_, ?_⟩
  · rw [iss_sim, ← iss_sim_go_world_indep w w2 env tl od yaml isa]
    exact htr
  · exact iss_sim_go_no_timeout w env tl od yaml isa (splitOnComma iss_list) tr htr
  · intro name hn base hbase t ht i hi
    exact iss_sim_go_mem w env tl od yaml isa (splitOnComma iss_list) tr htr
      name hn base hbase t ht i hi

/-- A world in which every command fails with a nonzero exit status. -/
def wFail : World := fun _ => CmdBehavior.mk 1 "simulation error" 0

/-- A world in which every command succeeds. -/
def wOk : World := fun _ => CmdBehavior.mk 0 "" 0

/-- Demonstration ISS YAML with a single spike entry. -/
def demoIssYaml : List IssEntry :=
  [IssEntry.mk "spike" "spike -v <variant> <elf>" "SPIKE_PATH"]

/-- Demonstration environment defining only SPIKE_PATH. -/
def demoEnv : Env := fun v => if v == "SPIKE_PATH" then some "/sp" else none

/-- Demonstration test list with one test of one iteration. -/
def demoTests : List TestEntry := [TestEntry.mk "t0" 1 "u0"]

/-- Witness for C3 at concrete inputs, in particular in the world where
every simulation exits nonzero. -/
theorem sim_stage_no_timeout_no_abort_witness :
    iss_names_resolvable demoEnv demoIssYaml (splitOnComma "spike") = true
    ∧ (∃ tr, iss_sim wFail demoEnv demoTests "out" "spike" demoIssYaml "rv64gc"
          = Except.ok tr
        ∧ iss_sim wOk demoEnv demoTests "out" "spike" demoIssYaml "rv64gc"
          = Except.ok tr
        ∧ (∀ inv ∈ tr, inv.timeout = none)
        ∧ (∀ name ∈ splitOnComma "spike", ∀ base,
            parse_iss_yaml demoEnv name demoIssYaml "rv64gc" = Except.ok base →
            ∀ t ∈ demoTests, ∀ i < t.iterations,
              Invocation.mk (get_iss_cmd base (asm_elf_path "out" t.test i)
                (iss_log_path "out" name t.test i)) none ∈ tr)) :=
  ⟨by decide,
   sim_stage_no_timeout_no_abort wFail wOk demoEnv demoTests "out" "spike"
     demoIssYaml "rv64gc" (by decide)⟩

end RunPy

namespace RunPy

/-- Demonstration RTL simulator YAML: one vcs entry with two compile
command templates and one run command template. -/
def demoSimYaml : List SimEntry :=
  [SimEntry.mk "vcs" ["cc1 <out>", "cc2"] "runsim"]

/-- Deterministic random oracle used by the concrete evaluations. -/
def zeroRng : Nat → Nat := fun _ => 0

/-- C1: the generator compile templates do run one after another in listed
order, but a nonzero exit of a compile invocation does NOT abort the
pipeline: `run_cmd` wraps `subprocess.Popen`, which never raises
`CalledProcessError`, so the `except` handler that would call
`sys.exit(1)` is dead code.  In the world where every command exits with
status 1, `gen` still returns normally, having issued both compile
commands in order. -/
theorem compile_failure_not_fatal_eval :
    (wFail "cc1 out").exitCode = 1
    ∧ runCmd wFail "cc1 out" = "simulation error"
    ∧ gen wFail zeroRng demoTests "vcs" demoSimYaml "out" false true "" 0 "cwd"
      = Except.ok [Invocation.mk "cc1 out" none, Invocation.mk "cc2" none] := by
  refine ⟨rfl, rfl, by rfl⟩

/-- The exact command string the generator run loop builds for the
demonstration test with seed 0. -/
def demoRunCmd : String :=
  gen_run_cmd "" (re_sub "<cwd>" "cwd" (re_sub "<out>" "out" "runsim")) "out"
    (TestEntry.mk "t0" 1 "u0") 0

/-- A world in which the generator run invocation fails with exit status 1
and captured output "BOOM", while every other command (the compile phase)
succeeds with output "prior output". -/
def wRunFails : World := fun c =>
  if c == demoRunCmd then CmdBehavior.mk 1 "BOOM" 0
  else CmdBehavior.mk 0 "prior output" 0

/-- A world in which every command runs for 400 time units, exceeding the
300-unit generator timeout. -/
def wSlow : World := fun _ => CmdBehavior.mk 0 "slow output" 400

/-- C2: each generator run invocation is bounded by timeout 300 and both a
timeout and a nonzero exit abort the pipeline, but the captured output of
the failed invocation is NOT what is surfaced: the handler prints the stale
local `output`.  With simulate-only (compile loop skipped) the local is
unbound and `print(output)` raises `UnboundLocalError`; with the compile
phase run, the surfaced text is the output of the last compile command
("prior output"), not the captured output of the failed invocation
("BOOM").  A timeout raises `TimeoutExpired`, which the handler does not
catch, killing the process with no captured output printed at all. -/
theorem run_failure_surfaces_stale_output_eval :
    (wRunFails demoRunCmd).exitCode = 1
    ∧ (wRunFails demoRunCmd).output = "BOOM"
    ∧ gen wRunFails zeroRng demoTests "vcs" demoSimYaml "out" true false "" 0 "cwd"
      = Except.error GenAbort.unboundLocalError
    ∧ gen wRunFails zeroRng demoTests "vcs" demoSimYaml "out" false false "" 0 "cwd"
      = Except.error (GenAbort.calledProcessError "prior output")
    ∧ "prior output" ≠ "BOOM"
    ∧ gen wSlow zeroRng demoTests "vcs" demoSimYaml "out" false false "" 0 "cwd"
      = Except.error (GenAbort.timeoutExpired demoRunCmd) := by
  refine ⟨by decide, by decide, by rfl, by rfl, by decide, by rfl⟩

end RunPy
